import Mathlib

/-!
Verification of the multi-format GPS track decoder and point-reduction engine
(`src/multi_gpx_map/draft.py`).

The Python source is shallowly embedded: Python lists become Lean `List`s,
Python floats become `ℚ` (every arithmetic step relevant here is exact in IEEE
double, so the rational model agrees with the float computation at all inputs
the theorems touch), Python strings become `List Char` (a Python `str` is a
sequence of code points), and Python exceptions become `Except` errors.
-/

namespace MultiGpxMap

/-- A geographic point `(latitude, longitude)` in decimal degrees. -/
abbrev GeoPoint := ℚ × ℚ

/-! ## Track reducer: `resample_track` (draft.py lines 107-121)

```python
def resample_track(points, max_points=100):
    interval = len(points) / max_points
    resampled = []
    for i in range(max_points):
        idx = int(i * interval)
        if idx < len(points):
            resampled.append(points[idx])
    return resampled
```

The element type is generic: the Python code never inspects the points it
moves. `int(x)` truncates toward zero; here `i * interval ≥ 0` always, so it
is `Nat.floor`. -/

def resample_track {α : Type} (points : List α) (max_points : ℕ) : List α :=
  let interval : ℚ := (points.length : ℚ) / (max_points : ℚ)
  (List.range max_points).foldl
    (fun (resampled : List α) (i : ℕ) =>
      let idx : ℕ := Nat.floor ((i : ℚ) * interval)
      if h : idx < points.length then resampled ++ [points.get ⟨idx, h⟩]
      else resampled)
    []

/-- The reducer as the specification words it: emit, for `i` in
`0 .. maxPoints-1`, the input point at index `floor(i * n/maxPoints)`,
skipping any computed index `≥ n`. Written with natural-number division,
which equals `⌊i * (n / m : ℚ)⌋₊`. -/
def resample_track_spec {α : Type} (points : List α) (max_points : ℕ) : List α :=
  (List.range max_points).filterMap
    (fun i => points[i * points.length / max_points]?)

/-! ## Python exceptions

Exceptions a decode call can raise, as a typed outcome: `parseError` stands
for the XML/FIT parse failures (`defusedxml`'s `ParseError`, `gpxpy`'s and
`fitparse`'s parse exceptions), `valueError` for `float()` on a non-numeric
string, `typeError` for `float(None)`. -/

inductive PyExn where
  | parseError
  | valueError
  | typeError
deriving DecidableEq, Repr

/-! ## Binary log decoder: `load_points_from_fit` (draft.py lines 34-66)

```python
def load_points_from_fit(fit_file_path):
    points = []
    fit = FitFile(fit_file_path.as_posix())
    for record in fit.get_messages("record"):
        latitude = None
        longitude = None
        for data in record:
            if data.name == "position_lat":
                latitude = data.value * (180.0 / 2**31)
            elif data.name == "position_long":
                longitude = data.value * (180.0 / 2**31)
        if latitude is not None and longitude is not None:
            points.append((latitude, longitude))
    return points
```

A FIT file is modelled at the `fitparse` message level: a list of typed
messages, each a kind tag plus named fields. Coordinate field values are the
raw 32-bit signed semicircle integers; only fields named `position_lat` /
`position_long` are ever read, so an integer value type suffices. A file the
library cannot parse is the `none` parse outcome, whose exception propagates
to the caller uncaught. -/

structure FitField where
  name : String
  value : ℤ
deriving DecidableEq, Repr

structure FitMessage where
  kind : String
  fields : List FitField
deriving DecidableEq, Repr

/-- `data.value * (180.0 / 2**31)`: semicircles to decimal degrees. The
factor `180.0 / 2**31` and the products at the raw values the theorems use
are exact in IEEE double, so `ℚ` matches the float computation. -/
def semicircles_to_degrees (raw : ℤ) : ℚ :=
  (raw : ℚ) * (180 / 2 ^ 31)

/-- `fit.get_messages(kind)`: the messages of one kind, in stream order. -/
def get_messages (kind : String) (msgs : List FitMessage) : List FitMessage :=
  msgs.filter (fun m => m.kind == kind)

/-- The inner `for data in record` loop: scan the fields, remembering the
last-seen converted latitude and longitude (`None` when absent). -/
def scan_record_fields (fields : List FitField) : Option ℚ × Option ℚ :=
  fields.foldl
    (fun (st : Option ℚ × Option ℚ) (data : FitField) =>
      if data.name == "position_lat" then (some (semicircles_to_degrees data.value), st.2)
      else if data.name == "position_long" then (st.1, some (semicircles_to_degrees data.value))
      else st)
    (none, none)

/-- The outer loop of `load_points_from_fit` over the parsed messages. -/
def load_points_from_fit_messages (msgs : List FitMessage) : List GeoPoint :=
  (get_messages "record" msgs).foldl
    (fun (points : List GeoPoint) (record : FitMessage) =>
      match scan_record_fields record.fields with
      | (some latitude, some longitude) => points ++ [(latitude, longitude)]
      | _ => points)
    []

def load_points_from_fit (parse_result : Option (List FitMessage)) :
    Except PyExn (List GeoPoint) :=
  match parse_result with
  | none => Except.error PyExn.parseError
  | some msgs => Except.ok (load_points_from_fit_messages msgs)

/-- A record contributes `[point]` when both coordinate fields are present,
`[]` otherwise. -/
def fit_record_points (record : FitMessage) : List GeoPoint :=
  match scan_record_fields record.fields with
  | (some latitude, some longitude) => [(latitude, longitude)]
  | _ => []

/-! ## XML track decoder: `load_points_from_gpx` (draft.py lines 15-31)

```python
def load_points_from_gpx(gpx_file_path):
    with gpx_file_path.open() as f:
        gpx = gpxpy.parse(f)
    points = []
    for track in gpx.tracks:
        for segment in track.segments:
            for point in segment.points:
                points.append((point.latitude, point.longitude))
    return points
```

The input is modelled at the `gpxpy` parse-tree level: tracks, each holding
segments, each holding points with decimal-degree coordinates. A document
`gpxpy.parse` rejects is the `none` parse outcome; its exception propagates
to the caller uncaught. -/

structure GpxPoint where
  latitude : ℚ
  longitude : ℚ
deriving DecidableEq, Repr

structure GpxSegment where
  points : List GpxPoint
deriving DecidableEq, Repr

structure GpxTrack where
  segments : List GpxSegment
deriving DecidableEq, Repr

structure Gpx where
  tracks : List GpxTrack
deriving DecidableEq, Repr

/-- The triple-nested append loop of `load_points_from_gpx`. -/
def load_points_from_gpx_doc (gpx : Gpx) : List GeoPoint :=
  gpx.tracks.foldl
    (fun (points : List GeoPoint) (track : GpxTrack) =>
      track.segments.foldl
        (fun (points : List GeoPoint) (segment : GpxSegment) =>
          segment.points.foldl
            (fun (points : List GeoPoint) (point : GpxPoint) =>
              points ++ [(point.latitude, point.longitude)])
            points)
        points)
    []

def load_points_from_gpx (parse_result : Option Gpx) : Except PyExn (List GeoPoint) :=
  match parse_result with
  | none => Except.error PyExn.parseError
  | some gpx => Except.ok (load_points_from_gpx_doc gpx)

/-- All points of the document, flattened in document order (the
specification's reading of the nested loops). -/
def gpx_document_points (gpx : Gpx) : List GeoPoint :=
  gpx.tracks.flatMap
    (fun track => track.segments.flatMap
      (fun segment => segment.points.map
        (fun point => (point.latitude, point.longitude))))

/-- The number of point elements in the document. -/
def gpx_point_count (gpx : Gpx) : ℕ :=
  (gpx.tracks.map
    (fun track => (track.segments.map (fun segment => segment.points.length)).sum)).sum

/-! ## XML training decoder: `load_points_from_tcx` (draft.py lines 69-105)

```python
def load_points_from_tcx(tcx_file_path):
    namespaces = {"ns": "http://www.garmin.com/xmlschemas/TrainingCenterDatabase/v2"}
    points = []
    try:
        with tcx_file_path.open(encoding="utf-8-sig") as file:
            content = file.read()
            cleaned_content = re.sub(r"^\s+", "", content, flags=re.UNICODE)
        root = fromstring(cleaned_content)
        for trackpoint in root.findall(".//ns:Trackpoint", namespaces):
            position = trackpoint.find("ns:Position", namespaces)
            if position is not None:
                latitude = position.find("ns:LatitudeDegrees", namespaces)
                longitude = position.find("ns:LongitudeDegrees", namespaces)
                if latitude is not None and longitude is not None:
                    points.append((float(latitude.text), float(longitude.text)))
    except ParseError as e:
        logging.exception(...)
        return []
    return points
```

XML elements are modelled as a tag, optional text, and child elements; a tag
is the source's namespaced path string (e.g. `"ns:Trackpoint"`, with the
`namespaces` mapping folded in). The external `fromstring` parser is a
parameter returning `none` exactly when it raises `ParseError`. -/

inductive Xml where
  | elem (tag : String) (text : Option String) (children : List Xml)

def Xml.tag : Xml → String
  | .elem t _ _ => t

def Xml.text : Xml → Option String
  | .elem _ txt _ => txt

def Xml.children : Xml → List Xml
  | .elem _ _ cs => cs

mutual

/-- `root.findall(".//tag")`: all strict descendants of `root` carrying the
tag, in document (preorder) order. -/
def findall_desc (tag : String) : Xml → List Xml
  | .elem _ _ children => findall_forest tag children

/-- `findall_desc` over a forest: each matching element precedes its own
matching descendants; siblings follow. -/
def findall_forest (tag : String) : List Xml → List Xml
  | [] => []
  | c :: cs =>
    (if c.tag = tag then [c] else []) ++ findall_desc tag c ++ findall_forest tag cs

end

/-- `element.find(tag)`: the first direct child carrying the tag, or `None`. -/
def find_child (tag : String) (x : Xml) : Option Xml :=
  x.children.find? (fun c => c.tag == tag)

/-- The characters Python's `re` module (and `str.isspace`) treats as `\s`
in Unicode mode. -/
def is_py_space (c : Char) : Bool :=
  c = ' ' || c = '\t' || c = '\n' || c = '\r' || c = '\x0b' || c = '\x0c' ||
  c = '\x1c' || c = '\x1d' || c = '\x1e' || c = '\x1f' ||
  c = '\u0085' || c = '\u00A0' || c = '\u1680' ||
  ('\u2000' ≤ c && c ≤ '\u200A') ||
  c = '\u2028' || c = '\u2029' || c = '\u202F' || c = '\u205F' || c = '\u3000'

/-- The file read with `encoding="utf-8-sig"`: one leading byte-order mark,
when present, is removed. -/
def strip_utf8_sig_bom : List Char → List Char
  | '\uFEFF' :: rest => rest
  | cs => cs

/-- `re.sub(r"^\s+", "", content, flags=re.UNICODE)`: the anchored pattern
removes exactly the maximal leading whitespace run. -/
def strip_leading_whitespace (cs : List Char) : List Char :=
  cs.dropWhile is_py_space

/-- The input hygiene of `load_points_from_tcx`: BOM removal by the
`utf-8-sig` decoder, then the leading-whitespace substitution. -/
def clean_tcx_content (cs : List Char) : List Char :=
  strip_leading_whitespace (strip_utf8_sig_bom cs)

/-- Model of Python's builtin `float` on a string, restricted to finite
decimal notation (optional surrounding whitespace, optional sign, digits
with optional fractional part, optional decimal exponent); `none` is the
`ValueError` raised on any other string. (The `inf`/`nan` words and digit
underscores Python also accepts never arise in coordinate text and are out
of scope of every theorem below.) -/
def digits_value (ds : List Char) : ℕ :=
  ds.foldl (fun acc c => 10 * acc + (c.toNat - 48)) 0

def parse_exponent (cs : List Char) : Option ℤ :=
  match cs with
  | '+' :: rest =>
    if rest ≠ [] && rest.all Char.isDigit then some (digits_value rest : ℤ) else none
  | '-' :: rest =>
    if rest ≠ [] && rest.all Char.isDigit then some (-(digits_value rest : ℤ)) else none
  | rest =>
    if rest ≠ [] && rest.all Char.isDigit then some (digits_value rest : ℤ) else none

def parse_unsigned_float (cs : List Char) : Option ℚ :=
  let int_digits := cs.takeWhile Char.isDigit
  let rest := cs.dropWhile Char.isDigit
  let frac_digits :=
    match rest with
    | '.' :: r => some (r.takeWhile Char.isDigit)
    | _ => none
  let after :=
    match rest with
    | '.' :: r => r.dropWhile Char.isDigit
    | r => r
  if int_digits.isEmpty && (frac_digits.getD []).isEmpty then none
  else
    let mantissa : ℚ :=
      (digits_value int_digits : ℚ) +
        (digits_value (frac_digits.getD []) : ℚ) / 10 ^ (frac_digits.getD []).length
    match after with
    | [] => some mantissa
    | e :: r =>
      if e = 'e' || e = 'E' then
        match parse_exponent r with
        | some k => some (mantissa * 10 ^ (k : ℤ))
        | none => none
      else none

def py_float_of_chars (cs : List Char) : Option ℚ :=
  let trimmed := ((cs.dropWhile is_py_space).reverse.dropWhile is_py_space).reverse
  match trimmed with
  | '+' :: r => parse_unsigned_float r
  | '-' :: r => (parse_unsigned_float r).map Neg.neg
  | r => parse_unsigned_float r

/-- `float(text)` where `text` is an element's `.text`: `None` raises
`TypeError`, a non-numeric string raises `ValueError`. -/
def py_float (txt : Option String) : Except PyExn ℚ :=
  match txt with
  | none => Except.error PyExn.typeError
  | some s =>
    match py_float_of_chars s.data with
    | some q => Except.ok q
    | none => Except.error PyExn.valueError

/-- The `for trackpoint in root.findall(...)` loop body: skip a Trackpoint
without a Position or without both coordinate children; otherwise convert
both texts with `float`, whose exceptions abort the whole call. -/
def tcx_collect : List Xml → Except PyExn (List GeoPoint)
  | [] => Except.ok []
  | trackpoint :: rest =>
    match find_child "ns:Position" trackpoint with
    | none => tcx_collect rest
    | some position =>
      match find_child "ns:LatitudeDegrees" position,
            find_child "ns:LongitudeDegrees" position with
      | some latitude, some longitude => do
        let la ← py_float latitude.text
        let lo ← py_float longitude.text
        let points ← tcx_collect rest
        pure ((la, lo) :: points)
      | _, _ => tcx_collect rest

/-- `load_points_from_tcx`, with the external XML parser as a parameter:
`parse` returns `none` exactly when `fromstring` raises `ParseError`. The
`try`/`except ParseError` turns a parse failure into the empty list; any
exception from `float` escapes the `except` clause and propagates. -/
def load_points_from_tcx (parse : List Char → Option Xml) (raw : List Char) :
    Except PyExn (List GeoPoint) :=
  match parse (clean_tcx_content raw) with
  | none => Except.ok []
  | some root => tcx_collect (findall_desc "ns:Trackpoint" root)

/-- A structurally valid Training Center document whose one Trackpoint
carries a non-numeric `LatitudeDegrees` text. -/
def tcx_doc_bad_float : Xml :=
  Xml.elem "TrainingCenterDatabase" none
    [Xml.elem "ns:Trackpoint" none
      [Xml.elem "ns:Position" none
        [Xml.elem "ns:LatitudeDegrees" (some "abc") [],
         Xml.elem "ns:LongitudeDegrees" (some "1.0") []]]]

/-! ## Format dispatcher: `add_track_file_to_map` (draft.py lines 140-158)

```python
def add_track_file_to_map(file_path, folium_map, max_points=100, color="blue"):
    extension = file_path.suffix[1:].upper()
    loaders = {
        "GPX": load_points_from_gpx,
        "FIT": load_points_from_fit,
        "TCX": load_points_from_tcx,
    }
    loader = loaders[extension]
    points = loader(file_path)
    add_track_to_map(points, folium_map, max_points, color)
```

The dict lookup happens before any loader touches the file; on an extension
outside the closed key set it raises `KeyError`, the spec's
`UnsupportedFormat` outcome. The file content and the three decoders are
parameters, so independence from them is expressible. -/

inductive DecodeError where
  | MalformedStructure
  | UnreadableFile
  | UnsupportedFormat
deriving DecidableEq, Repr

inductive SourceFormat where
  | TextTrack
  | BinaryLog
  | TextTraining
deriving DecidableEq, Repr

/-- `file_path.suffix[1:].upper()`: the extension with the dot dropped,
uppercased (Python `str.upper` maps each character). -/
def track_file_extension (suffix : List Char) : List Char :=
  (suffix.drop 1).map Char.toUpper

/-- The `loaders` dict: extension key to decoder; `none` is a `KeyError`. -/
def loaders (extension : List Char) : Option SourceFormat :=
  if extension = "GPX".data then some SourceFormat.TextTrack
  else if extension = "FIT".data then some SourceFormat.BinaryLog
  else if extension = "TCX".data then some SourceFormat.TextTraining
  else none

/-- The dispatch of `add_track_file_to_map`: select the decoder by the
file's extension, then (and only then) run it on the file's content. -/
def add_track_file_to_map {γ : Type} (suffix : List Char) (content : γ)
    (run_loader : SourceFormat → γ → Except DecodeError (List GeoPoint)) :
    Except DecodeError (List GeoPoint) :=
  match loaders (track_file_extension suffix) with
  | none => Except.error DecodeError.UnsupportedFormat
  | some fmt => run_loader fmt content

lemma nat_floor_mul_div (i n m : ℕ) :
    Nat.floor ((i : ℚ) * ((n : ℚ) / (m : ℚ))) = i * n / m := by
  rw [mul_div_assoc']
  rw [show ((i : ℚ) * (n : ℚ)) = ((i * n : ℕ) : ℚ) by push_cast; ring]
  rw [Nat.floor_div_nat, Nat.floor_natCast]

lemma guarded_fold_filterMap {α : Type} (points : List α) (idx : ℕ → ℕ) :
    ∀ (l : List ℕ) (init : List α),
      (l.foldl (fun (acc : List α) (i : ℕ) =>
          if h : idx i < points.length then acc ++ [points.get ⟨idx i, h⟩]
          else acc) init)
      = init ++ l.filterMap (fun i => points[idx i]?) := by
  intro l
  induction l with
  | nil => intro init; simp
  | cons b bs ih =>
    intro init
    rw [List.foldl_cons, ih]
    by_cases h : idx b < points.length
    · rw [dif_pos h]
      simp [List.filterMap_cons, List.getElem?_eq_getElem h, List.get_eq_getElem]
    · rw [dif_neg h]
      simp [List.filterMap_cons, List.getElem?_eq_none (Nat.le_of_not_lt h)]

lemma resample_track_eq_spec {α : Type} (points : List α) (m : ℕ) :
    resample_track points m = resample_track_spec points m := by
  simp only [resample_track, resample_track_spec]
  rw [guarded_fold_filterMap points
    (fun i => Nat.floor ((i : ℚ) * ((points.length : ℚ) / (m : ℚ)))) (List.range m) []]
  simp only [nat_floor_mul_div, List.nil_append]

lemma length_filterMap_of_all_some {α β : Type} (f : α → Option β) :
    ∀ l : List α, (∀ a ∈ l, (f a).isSome) → (l.filterMap f).length = l.length := by
  intro l
  induction l with
  | nil => intro _; simp
  | cons b bs ih =>
    intro hall
    have hb : (f b).isSome := hall b (List.mem_cons_self b bs)
    obtain ⟨y, hy⟩ := Option.isSome_iff_exists.mp hb
    rw [List.filterMap_cons, hy]
    simp only [List.length_cons]
    rw [ih (fun a ha => hall a (List.mem_cons_of_mem b ha))]

/-- For a nonempty input, every loop iteration of `resample_track` appends a
point (the computed index is always in range), so the output length is
exactly `max_points`. -/
lemma resample_track_length {α : Type} (points : List α) (m : ℕ)
    (hn : 0 < points.length) : (resample_track points m).length = m := by
  rw [resample_track_eq_spec]
  unfold resample_track_spec
  rcases Nat.eq_zero_or_pos m with hm | hm
  · subst hm; simp
  · rw [length_filterMap_of_all_some _ (List.range m) ?_, List.length_range]
    intro i hi
    rw [List.mem_range] at hi
    have hlt : i * points.length / m < points.length := by
      rw [Nat.div_lt_iff_lt_mul hm]
      calc i * points.length < m * points.length :=
            Nat.mul_lt_mul_of_lt_of_le hi le_rfl hn
        _ = points.length * m := Nat.mul_comm m points.length
    simp [List.getElem?_eq_getElem hlt]

/-- C1, counterexample: with the 3-point track and `maxPoints = 5`, the loop
appends a point for every `i` in `0..4` (each computed index is `< 3`), so
the output has length `5`, not `min 5 3 = 3`. -/
theorem resample_track_length_ne_min :
    (resample_track ([10, 20, 30] : List ℕ) 5).length ≠
      min 5 ([10, 20, 30] : List ℕ).length := by
  rw [resample_track_eq_spec]; decide

/-- C1 (amended): for an input track of length `n > 0` and `1 ≤ maxPoints ≤ n`,
the output of `resample_track` has length exactly `min maxPoints n`
(`= maxPoints`). For `maxPoints > n` the output has length `maxPoints`, not
`n`, because every computed index is still in range. -/
theorem resample_track_length_min_of_le (α : Type) (points : List α) (m : ℕ)
    (hn : 0 < points.length) (_hm : 1 ≤ m) (hmn : m ≤ points.length) :
    (resample_track points m).length = min m points.length := by
  rw [resample_track_length points m hn, Nat.min_eq_left hmn]

theorem resample_track_length_min_of_le_witness :
    (resample_track ([10, 20, 30] : List ℕ) 2).length = min 2 3 :=
  resample_track_length_min_of_le ℕ [10, 20, 30] 2 (by decide) (by decide) (by decide)

set_option maxRecDepth 100000 in
/-- C2: `resample_track` computes `interval = n / maxPoints` and emits, for
each `i` in `0 .. maxPoints - 1` with `⌊i * interval⌋ < n`, the input point
at index `⌊i * interval⌋`, in increasing `i` order (the stride-sampling
specification `resample_track_spec`); hence the first output point is the
input's first point when `n > 0`, `n = 3, maxPoints = 5` yields
`[p0, p0, p1, p1, p2]`, and `n = 1000, maxPoints = 100` puts input point 500
at output position 50. -/
theorem resample_track_stride_sampling :
    (∀ (α : Type) (points : List α) (m : ℕ), 1 ≤ m →
        resample_track points m = resample_track_spec points m)
    ∧ (∀ (α : Type) (points : List α) (m : ℕ), 0 < points.length → 1 ≤ m →
        (resample_track points m).head? = points.head?)
    ∧ (∀ (α : Type) (p0 p1 p2 : α), resample_track [p0, p1, p2] 5 = [p0, p0, p1, p1, p2])
    ∧ (resample_track (List.range 1000) 100)[50]? = some 500 := by
  refine ⟨fun α points m _ => resample_track_eq_spec points m, ?_, ?_, ?_⟩
  · intro α points m hn hm
    rw [resample_track_eq_spec]
    obtain ⟨k, rfl⟩ : ∃ k, m = k + 1 := ⟨m - 1, (Nat.succ_pred_eq_of_pos hm).symm⟩
    cases points with
    | nil => simp at hn
    | cons a as =>
      simp [resample_track_spec, List.range_succ_eq_map, List.filterMap_cons]
  · intro α p0 p1 p2
    rw [resample_track_eq_spec]
    simp [resample_track_spec, List.range_succ]
  · rw [resample_track_eq_spec]; decide

theorem resample_track_stride_sampling_witness :
    (resample_track ([5, 6] : List ℕ) 3).head? = some 5 :=
  (resample_track_stride_sampling.2.1 ℕ [5, 6] 3 (by decide) (by decide)).trans rfl

/-- C8: `resample_track` is total (a pure function in the embedding), every
output point is one of the input points (each computed index that is used
passes the `idx < len(points)` guard, so no out-of-range access happens),
and the empty input yields the empty output. -/
theorem resample_track_total_and_safe :
    (∀ (α : Type) (points : List α) (m : ℕ), 0 < m →
        ∀ p ∈ resample_track points m, p ∈ points)
    ∧ (∀ (α : Type) (m : ℕ), 0 < m → resample_track ([] : List α) m = []) := by
  constructor
  · intro α points m _ p hp
    rw [resample_track_eq_spec] at hp
    unfold resample_track_spec at hp
    obtain ⟨i, _, hi⟩ := List.mem_filterMap.mp hp
    exact List.getElem?_mem hi
  · intro α m _
    rw [resample_track_eq_spec]
    simp [resample_track_spec]

theorem resample_track_total_and_safe_witness :
    7 ∈ ([7] : List ℕ) ∧ resample_track ([] : List ℕ) 3 = [] :=
  ⟨resample_track_total_and_safe.1 ℕ [7] 2 (by decide) 7
      (by rw [resample_track_eq_spec]; decide),
   resample_track_total_and_safe.2 ℕ 3 (by decide)⟩

/-- C3: the binary decoder converts raw 32-bit signed semicircle values to
degrees by multiplying by `180 / 2^31`, with the same conversion applied to
the latitude and to the longitude axis; raw `2^31` gives exactly `180`, raw
`0` gives `0`, raw `-2^31` gives `-180`. -/
theorem fit_semicircle_conversion :
    semicircles_to_degrees (2 ^ 31) = 180
    ∧ semicircles_to_degrees 0 = 0
    ∧ semicircles_to_degrees (-(2 ^ 31)) = -180
    ∧ (∀ lat_raw long_raw : ℤ,
        load_points_from_fit
            (some [⟨"record", [⟨"position_lat", lat_raw⟩, ⟨"position_long", long_raw⟩]⟩])
          = Except.ok [(semicircles_to_degrees lat_raw, semicircles_to_degrees long_raw)]) := by
  refine ⟨by norm_num [semicircles_to_degrees], by norm_num [semicircles_to_degrees],
    by norm_num [semicircles_to_degrees], fun lat_raw long_raw => rfl⟩

lemma scan_record_fields_isSome (fields : List FitField) :
    (scan_record_fields fields).1.isSome
        = fields.any (fun f => f.name == "position_lat")
    ∧ (scan_record_fields fields).2.isSome
        = fields.any (fun f => f.name == "position_long") := by
  suffices h : ∀ (st : Option ℚ × Option ℚ),
      ((fields.foldl
        (fun (st : Option ℚ × Option ℚ) (data : FitField) =>
          if data.name == "position_lat" then (some (semicircles_to_degrees data.value), st.2)
          else if data.name == "position_long" then (st.1, some (semicircles_to_degrees data.value))
          else st) st).1.isSome
        = (st.1.isSome || fields.any (fun f => f.name == "position_lat")))
      ∧ ((fields.foldl
        (fun (st : Option ℚ × Option ℚ) (data : FitField) =>
          if data.name == "position_lat" then (some (semicircles_to_degrees data.value), st.2)
          else if data.name == "position_long" then (st.1, some (semicircles_to_degrees data.value))
          else st) st).2.isSome
        = (st.2.isSome || fields.any (fun f => f.name == "position_long"))) by
    have h0 := h (none, none)
    simpa [scan_record_fields] using h0
  induction fields with
  | nil => intro st; simp
  | cons data rest ih =>
    intro st
    simp only [List.foldl_cons]
    by_cases h1 : (data.name == "position_lat") = true
    · rw [if_pos h1]
      obtain ⟨ihl, ihr⟩ := ih (some (semicircles_to_degrees data.value), st.2)
      rw [ihl, ihr, List.any_cons, List.any_cons]
      have hname : data.name = "position_lat" := by simpa using h1
      simp [hname]
    · rw [if_neg h1]
      by_cases h2 : (data.name == "position_long") = true
      · rw [if_pos h2]
        obtain ⟨ihl, ihr⟩ := ih (st.1, some (semicircles_to_degrees data.value))
        rw [ihl, ihr, List.any_cons, List.any_cons]
        simp [h1, h2]
      · rw [if_neg h2]
        obtain ⟨ihl, ihr⟩ := ih st
        rw [ihl, ihr, List.any_cons, List.any_cons]
        simp [h1, h2]

lemma load_fit_fold_general :
    ∀ (records : List FitMessage) (init : List GeoPoint),
      records.foldl
        (fun (points : List GeoPoint) (record : FitMessage) =>
          match scan_record_fields record.fields with
          | (some latitude, some longitude) => points ++ [(latitude, longitude)]
          | _ => points)
        init
      = init ++ records.flatMap fit_record_points := by
  intro records
  induction records with
  | nil => intro init; simp
  | cons r rest ih =>
    intro init
    rw [List.foldl_cons, List.flatMap_cons]
    rcases hscan : scan_record_fields r.fields with ⟨o1, o2⟩
    cases o1 <;> cases o2 <;>
      simp [hscan, ih, fit_record_points, List.append_assoc]

lemma load_points_from_fit_messages_eq (msgs : List FitMessage) :
    load_points_from_fit_messages msgs
      = (get_messages "record" msgs).flatMap fit_record_points := by
  unfold load_points_from_fit_messages
  rw [load_fit_fold_general]
  simp

/-- C6: in a binary log, a record message contributes exactly one point when
both the `position_lat` and the `position_long` field are present, and zero
points when either is missing; a missing-field record is skipped without any
error (the decoder stays a total function into a point list). -/
theorem fit_record_contribution :
    (∀ msgs : List FitMessage,
        (load_points_from_fit_messages msgs).length =
          ((get_messages "record" msgs).filter
            (fun record =>
              record.fields.any (fun f => f.name == "position_lat")
                && record.fields.any (fun f => f.name == "position_long"))).length)
    ∧ (∀ fields : List FitField,
        (load_points_from_fit_messages [⟨"record", fields⟩]).length =
          if fields.any (fun f => f.name == "position_lat")
              && fields.any (fun f => f.name == "position_long")
          then 1 else 0) := by
  have hlen : ∀ record : FitMessage,
      (fit_record_points record).length =
        if record.fields.any (fun f => f.name == "position_lat")
            && record.fields.any (fun f => f.name == "position_long")
        then 1 else 0 := by
    intro record
    obtain ⟨h1, h2⟩ := scan_record_fields_isSome record.fields
    unfold fit_record_points
    rcases hscan : scan_record_fields record.fields with ⟨o1, o2⟩
    rw [hscan] at h1 h2
    rw [← h1, ← h2]
    cases o1 <;> cases o2 <;> simp
  have hmain : ∀ msgs : List FitMessage,
      (load_points_from_fit_messages msgs).length =
        ((get_messages "record" msgs).filter
          (fun record =>
            record.fields.any (fun f => f.name == "position_lat")
              && record.fields.any (fun f => f.name == "position_long"))).length := by
    intro msgs
    rw [load_points_from_fit_messages_eq]
    induction get_messages "record" msgs with
    | nil => rfl
    | cons r rest ih =>
      rw [List.flatMap_cons, List.filter_cons, List.length_append, ih, hlen r]
      by_cases hr : (r.fields.any (fun f => f.name == "position_lat")
          && r.fields.any (fun f => f.name == "position_long")) = true
      · simp [hr]; omega
      · simp [hr]
  refine ⟨hmain, ?_⟩
  intro fields
  rw [hmain [⟨"record", fields⟩]]
  by_cases hr : (fields.any (fun f => f.name == "position_lat")
      && fields.any (fun f => f.name == "position_long")) = true
  · simp [get_messages, hr]
  · simp [get_messages, hr]

lemma foldl_append_flatMap {α β : Type} (f : β → List α) :
    ∀ (l : List β) (init : List α),
      l.foldl (fun acc b => acc ++ f b) init = init ++ l.flatMap f := by
  intro l
  induction l with
  | nil => intro init; simp
  | cons b bs ih => intro init; simp [List.foldl_cons, ih]

lemma flatMap_singleton_map {α β : Type} (f : α → β) (l : List α) :
    l.flatMap (fun x => [f x]) = l.map f := by
  induction l with
  | nil => rfl
  | cons a as ih => simp [List.flatMap_cons, ih]

lemma load_points_from_gpx_doc_eq (gpx : Gpx) :
    load_points_from_gpx_doc gpx = gpx_document_points gpx := by
  unfold load_points_from_gpx_doc gpx_document_points
  simp only [foldl_append_flatMap, List.nil_append, flatMap_singleton_map]

lemma gpx_document_points_length (gpx : Gpx) :
    (gpx_document_points gpx).length = gpx_point_count gpx := by
  unfold gpx_document_points gpx_point_count
  rw [List.length_flatMap]
  congr 1
  refine List.map_congr_left (fun track _ => ?_)
  rw [Function.comp_apply, List.length_flatMap]
  congr 1
  refine List.map_congr_left (fun segment _ => ?_)
  rw [Function.comp_apply, List.length_map]

/-- C7: on a parsed Text Track document the decoder returns, without error,
exactly the points of the document flattened across all tracks and segments in
document order, so the output length equals the number of point elements;
a structurally valid document with zero points yields the empty track, not
an error. -/
theorem gpx_flatten_round_trip :
    (∀ gpx : Gpx, load_points_from_gpx (some gpx) = Except.ok (gpx_document_points gpx))
    ∧ (∀ gpx : Gpx, (gpx_document_points gpx).length = gpx_point_count gpx)
    ∧ (∀ gpx : Gpx, gpx_point_count gpx = 0 →
        load_points_from_gpx (some gpx) = Except.ok []) := by
  refine ⟨fun gpx => ?_, fun gpx => gpx_document_points_length gpx, fun gpx h0 => ?_⟩
  · simp only [load_points_from_gpx]
    rw [load_points_from_gpx_doc_eq]
  · simp only [load_points_from_gpx]
    rw [load_points_from_gpx_doc_eq]
    have hlen : (gpx_document_points gpx).length = 0 := by
      rw [gpx_document_points_length, h0]
    rw [List.length_eq_zero.mp hlen]

theorem gpx_flatten_round_trip_witness :
    load_points_from_gpx (some ⟨[⟨[⟨[]⟩]⟩]⟩) = Except.ok [] :=
  gpx_flatten_round_trip.2.2 ⟨[⟨[⟨[]⟩]⟩]⟩ rfl

lemma strip_utf8_sig_bom_of_ne_bom (cs : List Char) (h : cs.head? ≠ some '\uFEFF') :
    strip_utf8_sig_bom cs = cs := by
  cases cs with
  | nil => rfl
  | cons c rest =>
    unfold strip_utf8_sig_bom
    split
    · next heq =>
      rw [List.cons.injEq] at heq
      exact absurd (by rw [heq.1]; rfl) h
    · rfl

lemma clean_tcx_content_prefixed (doc : List Char) (h : doc.head? ≠ some '\uFEFF') :
    clean_tcx_content ('\uFEFF' :: '\n' :: '\n' :: '\n' :: doc) = clean_tcx_content doc := by
  unfold clean_tcx_content
  rw [strip_utf8_sig_bom_of_ne_bom doc h]
  rw [show strip_utf8_sig_bom ('\uFEFF' :: '\n' :: '\n' :: '\n' :: doc)
        = '\n' :: '\n' :: '\n' :: doc from rfl]
  unfold strip_leading_whitespace
  rw [List.dropWhile_cons_of_pos (by rfl), List.dropWhile_cons_of_pos (by rfl),
    List.dropWhile_cons_of_pos (by rfl)]

/-- C5: a Text Training input whose cleaned content the XML parser rejects
makes `load_points_from_tcx` return the empty track to its caller (the
`except ParseError` clause swallows the failure), while the other two
decoders propagate their parse failures as errors. -/
theorem tcx_parse_failure_swallowed :
    (∀ (parse : List Char → Option Xml) (raw : List Char),
        parse (clean_tcx_content raw) = none →
        load_points_from_tcx parse raw = Except.ok [])
    ∧ load_points_from_gpx none = Except.error PyExn.parseError
    ∧ load_points_from_fit none = Except.error PyExn.parseError := by
  refine ⟨fun parse raw h => ?_, rfl, rfl⟩
  unfold load_points_from_tcx
  rw [h]

theorem tcx_parse_failure_swallowed_witness :
    load_points_from_tcx (fun _ => none) [] = Except.ok [] :=
  tcx_parse_failure_swallowed.1 (fun _ => none) [] rfl

/-- C9: a Text Training document that does not itself begin with a
byte-order mark decodes identically with and without a prefix consisting of
a byte-order mark and three newlines: the `utf-8-sig` read drops the mark
and the anchored whitespace substitution drops the newlines before
parsing. -/
theorem tcx_bom_newline_tolerance
    (parse : List Char → Option Xml) (doc : List Char)
    (h : doc.head? ≠ some '\uFEFF') :
    load_points_from_tcx parse ('\uFEFF' :: '\n' :: '\n' :: '\n' :: doc) =
      load_points_from_tcx parse doc := by
  unfold load_points_from_tcx
  rw [clean_tcx_content_prefixed doc h]

theorem tcx_bom_newline_tolerance_witness :
    load_points_from_tcx (fun _ => none)
        ('\uFEFF' :: '\n' :: '\n' :: '\n' :: ['<']) =
      load_points_from_tcx (fun _ => none) ['<'] :=
  tcx_bom_newline_tolerance (fun _ => none) ['<'] (by decide)

/-- C10: the Text Training decoder catches only the XML parse failure; on a
successfully parsed document containing a Trackpoint whose latitude text is
not a decimal number, the `float` call raises `ValueError`, which propagates
uncaught to the caller — the result is neither an empty track nor one of the
decode-error outcomes the try/except handles. -/
theorem tcx_bad_coordinate_text_propagates :
    load_points_from_tcx (fun _ => some tcx_doc_bad_float) [] =
      Except.error PyExn.valueError := by
  rfl

/-- C4: an extension outside the closed set \x7bGPX, FIT, TCX\x7d (after the
case-normalizing `suffix[1:].upper()`) makes the dispatch fail with
`UnsupportedFormat` — the `loaders` dict lookup raises before any decoder
runs, so the result is independent of the file content and of the decoders;
`.csv` is such an extension. -/
theorem unsupported_extension_dispatch :
    (∀ suffix : List Char, loaders (track_file_extension suffix) = none →
      ∀ (γ : Type) (content : γ)
        (run_loader : SourceFormat → γ → Except DecodeError (List GeoPoint)),
        add_track_file_to_map suffix content run_loader =
          Except.error DecodeError.UnsupportedFormat)
    ∧ loaders (track_file_extension ".csv".data) = none := by
  constructor
  · intro suffix h γ content run_loader
    unfold add_track_file_to_map
    rw [h]
  · decide

theorem unsupported_extension_dispatch_witness :
    add_track_file_to_map ".csv".data (0 : ℕ) (fun _ _ => Except.ok []) =
      Except.error DecodeError.UnsupportedFormat :=
  unsupported_extension_dispatch.1 ".csv".data unsupported_extension_dispatch.2
    ℕ 0 (fun _ _ => Except.ok [])

end MultiGpxMap
